import Mathlib

/-!
# Shallow embedding of `src/scheme.py` (pydantic v1 data model)

The repository defines a validated data model for workplace scheduling
(`TimeInterval`, `WorkDay`, `Schedule`, `Vacation`, `Department`, `Position`,
`Specialist`) using pydantic v1 `BaseModel`s with `@validator` /
`@root_validator` hooks.

This file embeds the Python code shallowly:

* Python `datetime.date` is a day number (`PyDate`), `datetime.time` a count
  of microseconds since midnight (`PyTime`), `datetime.timedelta` a normalized
  (days, seconds) pair (`PyTimedelta`, microseconds dropped — no claim needs
  sub-second resolution).
* A pydantic validator either returns the (possibly replaced) field value or
  raises; pydantic v1 catches `ValueError`, `TypeError` and `AssertionError`
  raised inside validators and turns them into validation failures, so each
  validator is embedded as a function into `Except PyErr α`, and model
  construction as a function into `Except PyErr Model` which runs field
  coercion and validators in declaration order.
* Two Python operations that the source invokes but that the operand types do
  not support — `time - time` and `timedelta <= int` — raise `TypeError` at
  runtime; they are embedded as functions that return `Except.error .typeError`.
* Strings are Lean `String`s; `str.isalpha` / `str.title` are modelled for
  ASCII strings (Python additionally treats non-ASCII Unicode letters as
  alphabetic; every claim only involves ASCII data).
-/

/-- The errors pydantic v1 turns into validation failures when a validator
raises them: plain `ValueError` (with its message), `TypeError`, and the two
`PydanticValueError` subclasses declared in `src/scheme.py`
(`SelectiveAssigningError` with its `selection0`/`selection1` context and
`DependentAssigningError` with its `fields`/`depend_on` context). -/
inductive PyErr where
  | typeError : PyErr
  | valueError (msg : String) : PyErr
  | selectiveAssigningError (selection0 selection1 : String) : PyErr
  | dependentAssigningError (fields depend_on : String) : PyErr
  deriving Repr, DecidableEq

/-- Python `datetime.time` as microseconds since midnight (0 ≤ t < 86400·10⁶).
Only the operations the source uses are modelled; `datetime.time` supports
comparison but no arithmetic. -/
abbrev PyTime := Nat

/-- `datetime.time.min` = 00:00:00 (default `start_time` of `TimeInterval`). -/
def timeMin : PyTime := 0

/-- `datetime.time.max` = 23:59:59.999999 (default `finish_time`). -/
def timeMax : PyTime := 86399999999

/-- Python `datetime.timedelta`, normalized so that `0 ≤ seconds < 86400`
(`days` may be negative); microseconds are dropped. -/
structure PyTimedelta where
  days : Int
  seconds : Nat
  deriving Repr, DecidableEq

/-- `timedelta(days=n)`. -/
def timedeltaDays (n : Int) : PyTimedelta := ⟨n, 0⟩

/-- `timedelta(seconds=n)`: Python normalizes with floor division, e.g.
`timedelta(seconds=-5) == timedelta(days=-1, seconds=86395)`. -/
def timedeltaSeconds (n : Int) : PyTimedelta :=
  ⟨n.fdiv 86400, (n.emod 86400).toNat⟩

/-- Python truthiness of a `timedelta`: falsy exactly when it is
`timedelta(0)`. -/
def PyTimedelta.falsy (t : PyTimedelta) : Bool :=
  t.days == 0 && t.seconds == 0

/-- Python `datetime.date`, as a day number (proleptic ordinal; only
differences and day-shifts matter to the source). A `date` object is always
truthy. -/
structure PyDate where
  day : Int
  deriving Repr, DecidableEq

/-- `date - date` yields a whole-day `timedelta`. -/
def dateSub (a b : PyDate) : PyTimedelta := timedeltaDays (a.day - b.day)

/-- `date + timedelta`: Python adds `timedelta.days` and ignores the
`seconds` and `microseconds` components. -/
def dateAdd (d : PyDate) (t : PyTimedelta) : PyDate := ⟨d.day + t.days⟩

/-- `time - time`: `datetime.time` defines no subtraction, so this raises
`TypeError` for every pair of operands (pydantic v1 catches the `TypeError`
raised inside a validator and reports it as a validation failure). -/
def timeSub (_ _ : PyTime) : Except PyErr PyTimedelta :=
  .error .typeError

/-- `timedelta <= int`: ordering between `timedelta` and `int` is not
defined in Python, so the comparison raises `TypeError`. -/
def timedeltaLeInt (_ : PyTimedelta) (_ : Int) : Except PyErr Bool :=
  .error .typeError

/- ## TimeInterval (src/scheme.py lines 58-74) -/

/-- The validated `TimeInterval` model: `start_time`/`finish_time` with
defaults `time.min`/`time.max`. -/
structure TimeInterval where
  start_time : PyTime
  finish_time : PyTime
  deriving Repr, DecidableEq

/-- Validator `TimeInterval.finish_must_be_later` (on `finish_time`):

```python
if ft - values["start_time"] <= 0:
    raise ValueError("Finish time must be later then start time")
else:
    return ft
```

The expression `ft - values["start_time"]` subtracts two `datetime.time`
objects. -/
def finish_must_be_later (ft : PyTime) (start_time : PyTime) :
    Except PyErr PyTime := do
  let d ← timeSub ft start_time
  let le ← timedeltaLeInt d 0
  if le then
    .error (.valueError "Finish time must be later then start time")
  else
    .ok ft

/-- Construction of `TimeInterval(start_time=st, finish_time=ft)`: the type
coercion of two `time` values succeeds, then the `finish_time` validator
runs with `start_time` already in `values`. -/
def TimeInterval.construct (st ft : PyTime) : Except PyErr TimeInterval := do
  let ft' ← finish_must_be_later ft st
  .ok ⟨st, ft'⟩

/- ## Weekdays (src/scheme.py lines 22-29) -/

/-- The `Weekdays` `IntEnum`, built from the `calendar` constants
(`MONDAY = 0` … `SUNDAY = 6`). -/
inductive Weekdays where
  | monday | tuesday | wednesday | thursday | friday | saturday | sunday
  deriving Repr, DecidableEq

/-- The numeric value of each `Weekdays` member (Monday-first ordinals). -/
def Weekdays.val : Weekdays → Nat
  | .monday => 0
  | .tuesday => 1
  | .wednesday => 2
  | .thursday => 3
  | .friday => 4
  | .saturday => 5
  | .sunday => 6

/- ## WorkDay (src/scheme.py lines 77-100) -/

/-- The validated `WorkDay` model. `is_absent` is declared `bool` with
default `False`, but its validator `time_none_only_if_is_absent` has no
`return` statement on the success path, so when the validator runs the field
is stored as Python `None`; hence `Option Bool` here. -/
structure WorkDay where
  weekday : Weekdays
  working_hours : Option (List TimeInterval)
  lunch_hours : Option TimeInterval
  is_absent : Option Bool
  deriving Repr, DecidableEq

/-- Validator `WorkDay.time_none_only_if_is_absent` (on `is_absent`):

```python
if "working_hours" in values and "lunch_hours" in values \
        and values["working_hours"] is None \
        and not v:
    raise DependentAssigningError(fields="working_hours, lunch_hours",
                                  depend_on="is_absent")
```

When the validator runs, `working_hours` and `lunch_hours` have already been
validated (both are `Optional`, so any `Option` value passes) and are present
in `values`; it raises when `working_hours is None` and `v` is falsy, and
otherwise falls off the end, returning Python `None`. -/
def time_none_only_if_is_absent (v : Bool)
    (working_hours : Option (List TimeInterval))
    (_lunch_hours : Option TimeInterval) : Except PyErr (Option Bool) :=
  if working_hours.isNone && !v then
    .error (.dependentAssigningError "working_hours, lunch_hours" "is_absent")
  else
    .ok none

/-- Construction of a `WorkDay`. `is_absent` is passed as `Option Bool`:
`none` means the argument was omitted, so the default `False` is used and —
because the validator is not declared with `always=True` — the validator is
skipped entirely and the default is stored as given. When `is_absent` is
supplied, the validator runs on the coerced `bool`. -/
def WorkDay.construct (weekday : Weekdays)
    (working_hours : Option (List TimeInterval))
    (lunch_hours : Option TimeInterval)
    (is_absent : Option Bool) : Except PyErr WorkDay :=
  match is_absent with
  | none => .ok ⟨weekday, working_hours, lunch_hours, some false⟩
  | some v => do
      let ia ← time_none_only_if_is_absent v working_hours lunch_hours
      .ok ⟨weekday, working_hours, lunch_hours, ia⟩

/- ## Schedule (src/scheme.py lines 103-119) -/

/-- The validated `Schedule` model. `working_days` is declared
`List[WorkDay]`, but its validator `max_len_7_days` returns no value on the
success path, so the stored field is Python `None`; hence
`Option (List WorkDay)` here. -/
structure Schedule where
  id : Int
  working_days : Option (List WorkDay)
  deriving Repr, DecidableEq

/-- Validator `Schedule.max_len_7_days` (on `working_days`):

```python
if len(w) > 7:
    raise ValueError("There are only 7 days in a week!")
```

There is no `return` statement, so on success the validator returns Python
`None` and the validated list is discarded. -/
def max_len_7_days (w : List WorkDay) :
    Except PyErr (Option (List WorkDay)) :=
  if w.length > 7 then
    .error (.valueError "There are only 7 days in a week!")
  else
    .ok none

/-- Construction of `Schedule(id=i, working_days=w)` from already-validated
`WorkDay` values. -/
def Schedule.construct (i : Int) (w : List WorkDay) : Except PyErr Schedule := do
  let wd ← max_len_7_days w
  .ok ⟨i, wd⟩

/- ## Vacation (src/scheme.py lines 122-167) -/

/-- The validated `Vacation` model. -/
structure Vacation where
  start_date : PyDate
  finish_date : Option PyDate
  vacation_duration : Option PyTimedelta
  deriving Repr, DecidableEq

/-- Raw input for the `vacation_duration` field, declared
`timedelta | conint(strict=True, gt=0, le=35) | None` in the source: a
caller passes either an `int` day-count or a `timedelta`. -/
inductive DurationInput where
  | int (n : Int)
  | td (t : PyTimedelta)
  deriving Repr, DecidableEq

/-- Field coercion of `vacation_duration`: pydantic v1 tries the union
members left to right, and its `timedelta` parser accepts any `int` input as
a count of SECONDS (`timedelta(seconds=value)`), so both an `int` and a
`timedelta` input are absorbed by the first union member `timedelta`; the
`conint(strict=True, gt=0, le=35)` member, and with it the 0 < d ≤ 35 range
check, is never consulted for these inputs. -/
def coerce_vacation_duration : DurationInput → PyTimedelta
  | .int n => timedeltaSeconds n
  | .td t => t

/-- Python truthiness test `not d` applied to the validated
`vacation_duration` value: `None` and `timedelta(0)` are falsy. -/
def durationFalsy : Option PyTimedelta → Bool
  | none => true
  | some td => td.falsy

/-- Python expression `values["finish_date"] - values["start_date"]`, where
`finish_date` may hold `None`: `date - date` succeeds, while `None - date`
raises `TypeError` (which pydantic catches as a validation failure). -/
def finishMinusStart (finish_date : Option PyDate) (start_date : PyDate) :
    Except PyErr PyTimedelta :=
  match finish_date with
  | some f => .ok (dateSub f start_date)
  | none => .error .typeError

/-- Validator `Vacation.duration_processing` (on `vacation_duration`, with
`always=True`, so it runs even when the field was not supplied):

```python
if ("finish_date" not in values or not values["finish_date"]) \
        and not d:
    raise SelectiveAssigningError(
            selection0="finish_date",
            selection1="vacation_duration")
if "finish_date" in values and "start_date" in values:
    return values["finish_date"] - values["start_date"]
else:
    if d is int:
        d = timedelta(days=d)
    return d
```

Both `finish_date` and `start_date` are always present as keys of `values`
once their own validation succeeded (a key holding `None` still counts as
present), so the second `if` always takes its `then` branch and the
`else` branch — including the dead `d is int` test, which compares a value
with the type object `int` and is never true — is unreachable; it is
therefore not part of the embedding. A `date` object is always truthy, so
`not values['finish_date']` holds exactly when the field holds `None`. -/
def duration_processing (d : Option PyTimedelta) (start_date : PyDate)
    (finish_date : Option PyDate) : Except PyErr (Option PyTimedelta) :=
  if finish_date.isNone && durationFalsy d then
    .error (.selectiveAssigningError "finish_date" "vacation_duration")
  else do
    let td ← finishMinusStart finish_date start_date
    .ok (some td)

/-- Root validator `Vacation.redefine_duration`:

```python
if "vacation_duration" in values and values.get("vacation_duration") \
        and \
        ("finish_date" not in values or not values.get("finish_date")):
    f_date = values.get("start_date") + values.get("vacation_duration")
    values.update(finish_date=f_date)
return values
```

(The original writes the update as a dict literal; keyword form shown here is
equivalent.)

On the success path all three keys are present, so the condition reduces to:
`vacation_duration` truthy and `finish_date` falsy (i.e. `None`). The
function returns the possibly-updated `finish_date` value. -/
def redefine_duration (start_date : PyDate) (finish_date : Option PyDate)
    (vacation_duration : Option PyTimedelta) : Option PyDate :=
  match vacation_duration, finish_date with
  | some td, none => if td.falsy then none else some (dateAdd start_date td)
  | _, f => f

/-- Construction of `Vacation(start_date=..., finish_date=...,
vacation_duration=...)`: field coercion (both optional fields default to
`None`), then the `always=True` field validator `duration_processing`, then
the root validator `redefine_duration`. -/
def Vacation.construct (start_date : PyDate) (finish_date : Option PyDate)
    (vacation_duration : Option DurationInput) : Except PyErr Vacation := do
  let d0 := vacation_duration.map coerce_vacation_duration
  let d ← duration_processing d0 start_date finish_date
  let f := redefine_duration start_date finish_date d
  .ok ⟨start_date, f, d⟩

/- ## Specialist (src/scheme.py lines 192-237) -/

/-- Python `str.isalpha()` for ASCII strings: nonempty and every character
alphabetic. (Python additionally treats non-ASCII Unicode letters as
alphabetic; no claim involves non-ASCII data.) -/
def pyIsAlpha (s : String) : Bool :=
  !s.isEmpty && s.data.all Char.isAlpha

/-- Worker for `pyTitle`: Python `str.title()` uppercases a cased character
that follows a non-cased character and lowercases a cased character that
follows a cased one; for ASCII, cased = alphabetic. -/
def pyTitleGo : Bool → List Char → List Char
  | _, [] => []
  | prevCased, c :: cs =>
    if c.isAlpha then
      (if prevCased then c.toLower else c.toUpper) :: pyTitleGo true cs
    else
      c :: pyTitleGo false cs

/-- Python `str.title()` for ASCII strings. -/
def pyTitle (s : String) : String :=
  ⟨pyTitleGo false s.data⟩

/-- Validator `Specialist.must_have_only_letters` (`pre=True`, on
`first_name`, `last_name` and `patronymic`):

```python
if not v.isalpha():
    raise ValueError("must contain only letters.")
return v.title()
```
-/
def must_have_only_letters (v : String) : Except PyErr String :=
  if !pyIsAlpha v then
    .error (.valueError "must contain only letters.")
  else
    .ok (pyTitle v)

/-- Validator `Specialist.must_be_ge_zero` (on `schedule_id`,
`department_id` and `position_id`):

```python
if v < 0:
    return None
return v
```

It never raises: a negative id is replaced by Python `None`. -/
def must_be_ge_zero (v : Int) : Option Int :=
  if v < 0 then none else some v

/-- The validated `Specialist` model. The three foreign-key fields are
declared `int` but their validator may replace the value with `None`, hence
`Option Int`. `photo` is declared `FileUrl`; its URL parsing is not touched
by any claim, so it is carried as a string assumed valid. -/
structure Specialist where
  id : Int
  first_name : String
  last_name : String
  patronymic : String
  photo : String
  department_id : Option Int
  position_id : Option Int
  description : Option String
  schedule_id : Option Int
  vacation : Option Vacation
  deriving Repr, DecidableEq

/-- Derived read-only property `Specialist.full_name`: the three name fields
joined by single spaces, last name first. -/
def Specialist.full_name (s : Specialist) : String :=
  s.last_name ++ " " ++ s.first_name ++ " " ++ s.patronymic

/-- Construction of a `Specialist`: the name validators run in field
declaration order (`first_name`, `last_name`, `patronymic`), then the
never-failing foreign-key validator on `schedule_id`, `department_id`,
`position_id`. -/
def Specialist.construct (id : Int)
    (first_name last_name patronymic photo : String)
    (department_id position_id : Int) (description : Option String)
    (schedule_id : Int) (vacation : Option Vacation) :
    Except PyErr Specialist := do
  let fn ← must_have_only_letters first_name
  let ln ← must_have_only_letters last_name
  let pt ← must_have_only_letters patronymic
  .ok ⟨id, fn, ln, pt, photo, must_be_ge_zero department_id,
       must_be_ge_zero position_id, description,
       must_be_ge_zero schedule_id, vacation⟩

/-! ## Helper lemmas -/

/-- With `finish_date` absent, `duration_processing` always fails: either the
selective-assignment check fires (duration falsy) or the subtraction
`None - start_date` raises `TypeError`. -/
theorem duration_processing_no_finish (d : Option PyTimedelta) (start : PyDate) :
    duration_processing d start none =
      if durationFalsy d
      then .error (.selectiveAssigningError "finish_date" "vacation_duration")
      else .error .typeError := by
  unfold duration_processing finishMinusStart
  cases hd : durationFalsy d <;> simp only [hd] <;> rfl

/-- A string containing a non-alphabetic character fails `isalpha`. -/
theorem pyIsAlpha_eq_false (v : String) (c : Char) (hc : c ∈ v.data)
    (hA : c.isAlpha = false) : pyIsAlpha v = false := by
  unfold pyIsAlpha
  have h : v.data.all Char.isAlpha = false :=
    List.all_eq_false.mpr ⟨c, hc, by simp [hA]⟩
  simp [h]

/-- A name with a non-alphabetic character is rejected by
`must_have_only_letters`. -/
theorem mhol_error (v : String) (c : Char) (hc : c ∈ v.data)
    (hA : c.isAlpha = false) :
    must_have_only_letters v = .error (.valueError "must contain only letters.") := by
  unfold must_have_only_letters
  rw [pyIsAlpha_eq_false v c hc hA]
  rfl

/-- When `must_have_only_letters` accepts, the stored value is the
title-cased input. -/
theorem mhol_ok (v t : String) (h : must_have_only_letters v = .ok t) :
    t = pyTitle v := by
  unfold must_have_only_letters at h
  by_cases hv : pyIsAlpha v = true
  · rw [hv] at h
    simp at h
    exact h.symm
  · rw [Bool.not_eq_true] at hv
    rw [hv] at h
    simp at h

/-- Unfolding of `Specialist.construct` as a match on the three name
validators (the foreign-key validator never fails). -/
theorem specialist_construct_eq (id : Int) (fn ln pt photo : String)
    (dep pos : Int) (desc : Option String) (sch : Int)
    (vac : Option Vacation) :
    Specialist.construct id fn ln pt photo dep pos desc sch vac =
      match must_have_only_letters fn, must_have_only_letters ln,
          must_have_only_letters pt with
      | .ok a, .ok b, .ok c =>
          .ok ⟨id, a, b, c, photo, must_be_ge_zero dep, must_be_ge_zero pos,
               desc, must_be_ge_zero sch, vac⟩
      | .error e, _, _ => .error e
      | .ok _, .error e, _ => .error e
      | .ok _, .ok _, .error e => .error e := by
  unfold Specialist.construct
  cases must_have_only_letters fn <;> cases must_have_only_letters ln <;>
    cases must_have_only_letters pt <;> rfl

/-! ## Claims -/

/-- C1: the claim states that `TimeInterval` construction fails for
`finish_time <= start_time` and succeeds, storing both values, for
`finish_time > start_time`. In fact construction fails for EVERY pair of
times: the validator evaluates `ft - values["start_time"]`, but
`datetime.time` supports no subtraction, so the expression raises
`TypeError` on every input and pydantic reports it as a validation failure.
No `TimeInterval` can ever be constructed. -/
theorem C1_time_interval_never_constructs (st ft : PyTime) :
    TimeInterval.construct st ft = .error .typeError := rfl

/-- C2: the claim states that a `Vacation` built from `start_date` and
`vacation_duration` alone succeeds with `finish_date` derived as
`start_date + vacation_duration`. In fact every duration-only construction
fails: the `finish_date` key is present in `values` (holding `None`), so
`duration_processing` evaluates `None - start_date`, which raises
`TypeError` (or, for a zero duration, the selective-assignment check fires
first). The derivation step in `redefine_duration` is unreachable. -/
theorem C2_duration_only_vacation_never_constructs (start : PyDate)
    (d : DurationInput) :
    (Vacation.construct start none (some d)).isOk = false := by
  unfold Vacation.construct
  simp only []
  rw [duration_processing_no_finish]
  cases durationFalsy (Option.map coerce_vacation_duration (some d)) <;> rfl

/-- C3: for every `Vacation` constructed with both `finish_date` and
`vacation_duration` supplied, construction succeeds, the stored
`finish_date` is the supplied one, and `vacation_duration` is recomputed as
`finish_date - start_date`, overriding the supplied duration. -/
theorem C3_finish_date_priority (start f : PyDate) (d : DurationInput) :
    Vacation.construct start (some f) (some d) =
      .ok ⟨start, some f, some (dateSub f start)⟩ := rfl

/-- C4: a `Vacation` constructed with neither `finish_date` nor
`vacation_duration` fails with the selective-assignment error naming
`finish_date` and `vacation_duration` as the alternative choices. -/
theorem C4_neither_field_selective_error (start : PyDate) :
    Vacation.construct start none none =
      .error (.selectiveAssigningError "finish_date" "vacation_duration") := rfl

/-- C5: the claim states that an integer `vacation_duration` with no
`finish_date` is rejected unless `0 < duration <= 35`, in particular that 36
fails the range check. In fact the `conint(strict=True, gt=0, le=35)` range
check never runs: the union member `timedelta` is tried first and coerces
any integer to `timedelta(seconds=n)`; construction then fails for EVERY
integer duration — 36 and the in-range 5 alike — with the `TypeError` from
`None - start_date` in `duration_processing`, not with a range failure. -/
theorem C5_integer_duration_not_range_checked (start : PyDate) :
    Vacation.construct start none (some (.int 36)) = .error .typeError
    ∧ Vacation.construct start none (some (.int 5)) = .error .typeError :=
  ⟨rfl, rfl⟩

/-- C6 counterexample: the claim states that a `WorkDay` constructed with
`is_absent = False` and `working_hours = None` succeeds because the
validator never raises. At the concrete input
`WorkDay(weekday=monday, working_hours=None, lunch_hours=None,
is_absent=False)` construction does NOT succeed. -/
theorem C6_counterexample_explicit_false_fails :
    (WorkDay.construct .monday none none (some false)).isOk = false := rfl

/-- C6 (amended): the validator `time_none_only_if_is_absent` does raise:
when `is_absent=False` is supplied explicitly together with
`working_hours=None`, construction fails with the dependent-assigning error
naming `working_hours, lunch_hours` as depending on `is_absent`. The
dependency goes unenforced only when `is_absent` is omitted: the default
`False` is then used without running the validator (it is not declared
`always=True`), and construction succeeds with `working_hours = None`. -/
theorem C6_amended_dependency_enforced_when_supplied (wd : Weekdays)
    (lh : Option TimeInterval) :
    WorkDay.construct wd none lh (some false) =
      .error (.dependentAssigningError "working_hours, lunch_hours" "is_absent")
    ∧ WorkDay.construct wd none lh none = .ok ⟨wd, none, lh, some false⟩ :=
  ⟨rfl, rfl⟩

/-- C7: a `Schedule` whose `working_days` sequence has more than 7 entries
fails with the "too many days" cardinality error, and one with exactly 7
entries is constructed successfully. -/
theorem C7_schedule_length_bound (i : Int) (w : List WorkDay) :
    (w.length > 7 →
      Schedule.construct i w = .error (.valueError "There are only 7 days in a week!"))
    ∧ (w.length = 7 → (Schedule.construct i w).isOk = true) := by
  constructor
  · intro h
    unfold Schedule.construct max_len_7_days
    rw [if_pos h]
    rfl
  · intro h
    unfold Schedule.construct max_len_7_days
    rw [if_neg (by omega)]
    rfl

/-- C7 witness: 8 identical work days are rejected with the cardinality
error; 7 are accepted. -/
theorem C7_schedule_length_bound_witness :
    Schedule.construct 1 (List.replicate 8 ⟨.monday, some [], none, some false⟩) =
      .error (.valueError "There are only 7 days in a week!")
    ∧ (Schedule.construct 1
        (List.replicate 7 ⟨.monday, some [], none, some false⟩)).isOk = true :=
  ⟨(C7_schedule_length_bound 1 _).1 (by decide),
   (C7_schedule_length_bound 1 _).2 (by decide)⟩

/-- C8: for a `Specialist` whose name fields pass the alphabetic check,
construction succeeds whatever the signs of `schedule_id`, `department_id`
and `position_id`; a negative id is stored as `None` and a non-negative id
is stored unchanged. -/
theorem C8_negative_ids_downgraded (id : Int) (fn ln pt photo : String)
    (dep pos : Int) (desc : Option String) (sch : Int)
    (vac : Option Vacation) (h1 : pyIsAlpha fn = true)
    (h2 : pyIsAlpha ln = true) (h3 : pyIsAlpha pt = true) :
    Specialist.construct id fn ln pt photo dep pos desc sch vac =
      .ok ⟨id, pyTitle fn, pyTitle ln, pyTitle pt, photo,
           if dep < 0 then none else some dep,
           if pos < 0 then none else some pos, desc,
           if sch < 0 then none else some sch, vac⟩ := by
  unfold Specialist.construct must_have_only_letters must_be_ge_zero
  simp only [h1, h2, h3]
  rfl

/-- C8 witness: `department_id = -1` and `schedule_id = -2` are downgraded
to absent references while `position_id = 3` is kept, and construction
succeeds. -/
theorem C8_negative_ids_downgraded_witness :
    Specialist.construct 1 "john" "smith" "paul" "file:///photo.png"
        (-1) 3 none (-2) none =
      .ok ⟨1, "John", "Smith", "Paul", "file:///photo.png",
           none, some 3, none, none, none⟩ :=
  (C8_negative_ids_downgraded 1 "john" "smith" "paul" "file:///photo.png"
      (-1) 3 none (-2) none (by decide) (by decide) (by decide)).trans
    (by rfl)

/-- C9: a `Specialist` name field (`first_name`, `last_name` or
`patronymic`) containing any non-alphabetic character makes construction
fail with the invalid-characters error, and whenever construction succeeds
the stored name fields are the inputs normalized to title case. -/
theorem C9_names_alphabetic_and_title_cased (id : Int)
    (fn ln pt photo : String) (dep pos : Int) (desc : Option String)
    (sch : Int) (vac : Option Vacation) :
    ((∃ c ∈ fn.data, c.isAlpha = false) ∨ (∃ c ∈ ln.data, c.isAlpha = false)
        ∨ (∃ c ∈ pt.data, c.isAlpha = false) →
      (Specialist.construct id fn ln pt photo dep pos desc sch vac).isOk = false)
    ∧ (∀ s, Specialist.construct id fn ln pt photo dep pos desc sch vac = .ok s →
        s.first_name = pyTitle fn ∧ s.last_name = pyTitle ln
          ∧ s.patronymic = pyTitle pt) := by
  rw [specialist_construct_eq]
  constructor
  · rintro (⟨c, hc, hA⟩ | ⟨c, hc, hA⟩ | ⟨c, hc, hA⟩)
    · rw [mhol_error fn c hc hA]
      rfl
    · rw [mhol_error ln c hc hA]
      cases must_have_only_letters fn <;> rfl
    · rw [mhol_error pt c hc hA]
      cases must_have_only_letters fn <;> cases must_have_only_letters ln <;> rfl
  · intro s hs
    cases hfn : must_have_only_letters fn with
    | error e => rw [hfn] at hs; exact Except.noConfusion hs
    | ok v =>
      cases hln : must_have_only_letters ln with
      | error e => rw [hfn, hln] at hs; exact Except.noConfusion hs
      | ok v2 =>
        cases hpt : must_have_only_letters pt with
        | error e => rw [hfn, hln, hpt] at hs; exact Except.noConfusion hs
        | ok v3 =>
          rw [hfn, hln, hpt] at hs
          simp only [Except.ok.injEq] at hs
          subst hs
          exact ⟨mhol_ok fn v hfn, mhol_ok ln v2 hln, mhol_ok pt v3 hpt⟩

/-- C9 witness: `first_name = "john3"` is rejected, while
`first_name = "john"` is accepted and stored as `"John"`. -/
theorem C9_names_alphabetic_and_title_cased_witness :
    (Specialist.construct 1 "john3" "smith" "paul" "file:///photo.png"
        2 3 none 4 none).isOk = false
    ∧ ∃ s, Specialist.construct 1 "john" "smith" "paul" "file:///photo.png"
          2 3 none 4 none = .ok s ∧ s.first_name = "John" := by
  constructor
  · exact (C9_names_alphabetic_and_title_cased 1 "john3" "smith" "paul"
      "file:///photo.png" 2 3 none 4 none).1 (Or.inl ⟨'3', by decide, by decide⟩)
  · have hok : Specialist.construct 1 "john" "smith" "paul" "file:///photo.png"
        2 3 none 4 none =
        .ok ⟨1, "John", "Smith", "Paul", "file:///photo.png",
             some 2, some 3, none, some 4, none⟩ := by rfl
    refine ⟨_, hok, ?_⟩
    exact (((C9_names_alphabetic_and_title_cased 1 "john" "smith" "paul"
      "file:///photo.png" 2 3 none 4 none).2 _ hok).1).trans (by decide)

/-- C10: whenever `Schedule` construction succeeds (at most 7 working
days), the stored `working_days` field is `None`, not the supplied list:
`max_len_7_days` returns no value on its success path, so the validated
list is discarded. -/
theorem C10_working_days_discarded (i : Int) (w : List WorkDay)
    (h : w.length ≤ 7) : Schedule.construct i w = .ok ⟨i, none⟩ := by
  unfold Schedule.construct max_len_7_days
  rw [if_neg (by omega)]
  rfl

/-- C10 witness: a one-day schedule is accepted but its `working_days` is
stored as `None`. -/
theorem C10_working_days_discarded_witness :
    Schedule.construct 5 [⟨.monday, some [], none, some false⟩] = .ok ⟨5, none⟩ :=
  C10_working_days_discarded 5 _ (by decide)
